import Mathlib

/-!
Verification of the `ai-store-v3` OpenAI service modules.

The repository contains two near-duplicate client modules
(`src/services/openai.ts`, second document, and the unnamed variant) that

* classify a free-text style prompt into an inspiration category by calling
  an external chat-completion model and parsing its JSON reply
  (`extractOutfitContext` / `extractTravelInfo`), and
* generate outfit suggestions by building a natural-language directive from
  the context fields (with an optional weather record), calling the model,
  and parsing the reply as a JSON array (`generateOutfitSuggestions`).

This file embeds those functions shallowly:

* JavaScript numbers are modelled as `ℚ` (the temperature logic only uses
  exact integer comparisons and `Math.round`, where `ℚ` and IEEE doubles
  agree on all inputs of interest);
* the external model call is modelled by passing in the transport outcome —
  either a transport error or the reply content (`Option String`, since the
  SDK's `message.content` may be `null`);
* `JSON.parse` is modelled by `jsonParse`, a standalone JSON grammar parser
  (ECMA-404, the grammar `JSON.parse` implements): it either fails (`none`,
  the thrown `SyntaxError`) or returns the parsed value.  Numbers keep their
  lexeme (no claim depends on numeric values of parsed JSON); a `\u` escape
  denoting a lone UTF-16 surrogate becomes U+FFFD because Lean strings hold
  Unicode scalar values (no claim exercises this corner).
-/

namespace AIStore

/-- JSON values as produced by `JSON.parse`.  Object members keep source
order; duplicate keys are kept as parsed (no claim depends on them). -/
inductive Json where
  | null
  | bool (b : Bool)
  | num (lexeme : String)
  | str (s : String)
  | arr (elems : List Json)
  | obj (members : List (String × Json))
deriving Repr

/-- JSON whitespace characters (ECMA-404: space, tab, line feed, carriage
return). -/
def isJsonWs (c : Char) : Bool :=
  c == ' ' || c == '\t' || c == '\n' || c == '\x0d'

/-- Drop leading JSON whitespace. -/
def skipWs (s : List Char) : List Char :=
  s.dropWhile isJsonWs

/-- Value of a hexadecimal digit. -/
def hexVal (c : Char) : Option Nat :=
  if '0' ≤ c ∧ c ≤ '9' then some (c.toNat - 48)
  else if 'a' ≤ c ∧ c ≤ 'f' then some (c.toNat - 87)
  else if 'A' ≤ c ∧ c ≤ 'F' then some (c.toNat - 55)
  else none

/-- The Unicode replacement character, standing in for UTF-16 lone
surrogates that Lean strings cannot hold. -/
def replacementChar : Char := Char.ofNat 0xFFFD

/-- Parse the body of a JSON string after the opening quote, returning the
decoded string and the input after the closing quote.  Escapes follow the
JSON grammar; a `\u` high surrogate followed by a `\u` low surrogate is
combined into the astral code point. -/
def parseStringBody : Nat → List Char → List Char → Option (String × List Char)
  | 0, _, _ => none
  | Nat.succ fuel, acc, s =>
    match s with
    | [] => none
    | '"' :: rest => some (String.mk acc.reverse, rest)
    | '\\' :: esc :: rest =>
      match esc with
      | '"' => parseStringBody fuel ('"' :: acc) rest
      | '\\' => parseStringBody fuel ('\\' :: acc) rest
      | '/' => parseStringBody fuel ('/' :: acc) rest
      | 'b' => parseStringBody fuel (Char.ofNat 8 :: acc) rest
      | 'f' => parseStringBody fuel (Char.ofNat 12 :: acc) rest
      | 'n' => parseStringBody fuel ('\n' :: acc) rest
      | 'r' => parseStringBody fuel (Char.ofNat 13 :: acc) rest
      | 't' => parseStringBody fuel ('\t' :: acc) rest
      | 'u' =>
        match rest with
        | h1 :: h2 :: h3 :: h4 :: rest2 =>
          match hexVal h1, hexVal h2, hexVal h3, hexVal h4 with
          | some a, some b, some c, some d =>
            let n := ((a * 16 + b) * 16 + c) * 16 + d
            if n < 0xD800 then
              parseStringBody fuel (Char.ofNat n :: acc) rest2
            else if n ≤ 0xDBFF then
              match rest2 with
              | '\\' :: 'u' :: g1 :: g2 :: g3 :: g4 :: rest3 =>
                match hexVal g1, hexVal g2, hexVal g3, hexVal g4 with
                | some a2, some b2, some c2, some d2 =>
                  let m := ((a2 * 16 + b2) * 16 + c2) * 16 + d2
                  if 0xDC00 ≤ m ∧ m ≤ 0xDFFF then
                    let code := 0x10000 + (n - 0xD800) * 0x400 + (m - 0xDC00)
                    parseStringBody fuel (Char.ofNat code :: acc) rest3
                  else
                    parseStringBody fuel (replacementChar :: acc) rest2
                | _, _, _, _ => none
              | _ => parseStringBody fuel (replacementChar :: acc) rest2
            else if n ≤ 0xDFFF then
              parseStringBody fuel (replacementChar :: acc) rest2
            else
              parseStringBody fuel (Char.ofNat n :: acc) rest2
          | _, _, _, _ => none
        | _ => none
      | _ => none
    | c :: rest =>
      if c.toNat < 32 then none else parseStringBody fuel (c :: acc) rest

/-- Parse a JSON number (`-? (0 | [1-9][0-9]*) frac? exp?`), keeping the
lexeme.  Returns `none` when the input does not start with a number. -/
def parseNumber (s : List Char) : Option (Json × List Char) :=
  let (negPart, s1) :=
    match s with
    | '-' :: rest => (['-'], rest)
    | _ => (([] : List Char), s)
  match s1 with
  | [] => none
  | c :: _ =>
    if c.isDigit then
      let (intPart, s2) :=
        if c == '0' then (['0'], s1.drop 1)
        else (s1.takeWhile Char.isDigit, s1.dropWhile Char.isDigit)
      let (fracPart, s3) :=
        match s2 with
        | '.' :: ds =>
          match ds with
          | d :: _ =>
            if d.isDigit then
              ('.' :: ds.takeWhile Char.isDigit, ds.dropWhile Char.isDigit)
            else (([] : List Char), s2)
          | [] => (([] : List Char), s2)
        | _ => (([] : List Char), s2)
      -- a '.' with no digit after it is a syntax error: signalled by
      -- leaving the '.' unconsumed, which the caller then rejects
      match s3 with
      | '.' :: _ => none
      | _ =>
        let (expPart, s4) :=
          match s3 with
          | e :: es =>
            if e == 'e' || e == 'E' then
              let (sign, es2) :=
                match es with
                | '+' :: tl => (['+'], tl)
                | '-' :: tl => (['-'], tl)
                | _ => (([] : List Char), es)
              match es2 with
              | d :: _ =>
                if d.isDigit then
                  (e :: sign ++ es2.takeWhile Char.isDigit,
                   es2.dropWhile Char.isDigit)
                else (([] : List Char), s3)
              | [] => (([] : List Char), s3)
            else (([] : List Char), s3)
          | [] => (([] : List Char), s3)
        match expPart, s4 with
        | [], 'e' :: _ => none
        | [], 'E' :: _ => none
        | _, _ =>
          some (Json.num (String.mk (negPart ++ intPart ++ fracPart ++ expPart)), s4)
    else none

mutual

/-- Parse one JSON value at the head of the input. -/
def parseValue : Nat → List Char → Option (Json × List Char)
  | 0, _ => none
  | Nat.succ fuel, s =>
    match s with
    | [] => none
    | 'n' :: 'u' :: 'l' :: 'l' :: rest => some (Json.null, rest)
    | 't' :: 'r' :: 'u' :: 'e' :: rest => some (Json.bool true, rest)
    | 'f' :: 'a' :: 'l' :: 's' :: 'e' :: rest => some (Json.bool false, rest)
    | '"' :: rest =>
      match parseStringBody (rest.length + 1) [] rest with
      | some (str, rest2) => some (Json.str str, rest2)
      | none => none
    | '[' :: rest =>
      match skipWs rest with
      | ']' :: rest3 => some (Json.arr [], rest3)
      | rest2 => parseElems fuel [] rest2
    | '\x7b' :: rest =>
      match skipWs rest with
      | '\x7d' :: rest3 => some (Json.obj [], rest3)
      | rest2 => parseMembers fuel [] rest2
    | _ => parseNumber s

/-- Parse the remaining elements of a non-empty JSON array. -/
def parseElems : Nat → List Json → List Char → Option (Json × List Char)
  | 0, _, _ => none
  | Nat.succ fuel, acc, s =>
    match parseValue fuel s with
    | none => none
    | some (v, rest) =>
      match skipWs rest with
      | ',' :: rest2 => parseElems fuel (v :: acc) (skipWs rest2)
      | ']' :: rest2 => some (Json.arr (v :: acc).reverse, rest2)
      | _ => none

/-- Parse the remaining members of a non-empty JSON object. -/
def parseMembers : Nat → List (String × Json) → List Char → Option (Json × List Char)
  | 0, _, _ => none
  | Nat.succ fuel, acc, s =>
    match s with
    | '"' :: rest =>
      match parseStringBody (rest.length + 1) [] rest with
      | none => none
      | some (key, rest2) =>
        match skipWs rest2 with
        | ':' :: rest3 =>
          match parseValue fuel (skipWs rest3) with
          | none => none
          | some (v, rest4) =>
            match skipWs rest4 with
            | ',' :: rest5 => parseMembers fuel ((key, v) :: acc) (skipWs rest5)
            | '\x7d' :: rest5 => some (Json.obj ((key, v) :: acc).reverse, rest5)
            | _ => none
        | _ => none
    | _ => none

end

/-- Model of `JSON.parse`: parse the whole text as a single JSON value
surrounded only by whitespace.  `none` models the thrown `SyntaxError`. -/
def jsonParse (s : String) : Option Json :=
  match parseValue (2 * s.length + 2) (skipWs s.toList) with
  | some (v, rest) => if (skipWs rest).isEmpty then some v else none
  | none => none

/-- True exactly on `Json.arr` values: the model of `Array.isArray`. -/
def jsonIsArr : Json → Bool
  | Json.arr _ => true
  | _ => false

/-- Look up a key in a parsed JSON object, last occurrence winning, as a
JavaScript object literal built by `JSON.parse` would. -/
def jsonLookup (j : Json) (key : String) : Option Json :=
  match j with
  | Json.obj members => (members.reverse.find? (fun m => m.fst == key)).map Prod.snd
  | _ => none

/-- Characters removed by `String.prototype.trim` (ECMAScript WhiteSpace
plus LineTerminator). -/
def jsWhitespaceChar (c : Char) : Bool :=
  decide (c.toNat ∈ ([0x9, 0xA, 0xB, 0xC, 0xD, 0x20, 0xA0, 0x1680,
      0x2028, 0x2029, 0x202F, 0x205F, 0x3000, 0xFEFF] : List Nat)) ||
    decide (0x2000 ≤ c.toNat ∧ c.toNat ≤ 0x200A)

/-- Model of `message.trim()`. -/
def jsTrim (s : String) : String :=
  String.mk (((s.toList.dropWhile jsWhitespaceChar).reverse.dropWhile
    jsWhitespaceChar).reverse)

/-- Model of `Math.round`, which rounds half toward positive infinity:
`Math.round x = ⌊x + 1/2⌋`.  The floor is computed directly on the reduced
fraction so that concrete inputs evaluate by `decide`; `jsRound_eq_floor`
below shows this equals `⌊q + 1/2⌋`. -/
def jsRound (q : ℚ) : ℤ :=
  Int.fdiv (2 * q.num + (q.den : ℤ)) (2 * (q.den : ℤ))

/-- Correctness of `jsRound`: it is the floor of `q + 1/2`. -/
lemma jsRound_eq_floor (q : ℚ) : jsRound q = Int.floor (q + 1 / 2) := by
  have hd : ((q.den : ℚ)) ≠ 0 := by exact_mod_cast (Rat.den_pos q).ne'
  have hnum : (q.num : ℚ) = q * (q.den : ℚ) :=
    (div_eq_iff hd).mp (Rat.num_div_den q)
  have key : q + 1 / 2 =
      ((2 * q.num + (q.den : ℤ) : ℤ) : ℚ) / ((2 * q.den : ℕ) : ℚ) := by
    push_cast
    rw [hnum, eq_div_iff (mul_ne_zero two_ne_zero hd)]
    ring
  rw [jsRound, key, Rat.floor_intCast_div_natCast,
    Int.fdiv_eq_ediv _ (by positivity)]
  push_cast
  ring

/-- Function `getTemperatureCategory` of `src/services/openai.ts`: fixed Fahrenheit
step function used by the weather branch of `generateOutfitSuggestions`. -/
def getTemperatureCategory (temp : ℚ) : String :=
  if temp ≥ 90 then "Scorching"
  else if temp ≥ 80 then "Very Hot"
  else if temp ≥ 70 then "Hot"
  else if temp ≥ 60 then "Warm"
  else if temp ≥ 50 then "Mild"
  else if temp ≥ 40 then "Cool"
  else if temp ≥ 32 then "Cold"
  else "Freezing"

/-- Unnamed variant (`src/unnamed/part_001`), `getTempCat`: the same step
function in the second copy of the module. -/
def getTempCat (t : ℚ) : String :=
  if t ≥ 90 then "Scorching"
  else if t ≥ 80 then "Very Hot"
  else if t ≥ 70 then "Hot"
  else if t ≥ 60 then "Warm"
  else if t ≥ 50 then "Mild"
  else if t ≥ 40 then "Cool"
  else if t ≥ 32 then "Cold"
  else "Freezing"

/-- The eight labels of the step function, coldest first. -/
def tempLabels : List String :=
  ["Freezing", "Cold", "Cool", "Mild", "Warm", "Hot", "Very Hot", "Scorching"]

/-- Index of the bucket a temperature falls into, following the same
threshold chain as `getTemperatureCategory` (0 = Freezing … 7 = Scorching). -/
def tempRank (t : ℚ) : ℕ :=
  if t ≥ 90 then 7
  else if t ≥ 80 then 6
  else if t ≥ 70 then 5
  else if t ≥ 60 then 4
  else if t ≥ 50 then 3
  else if t ≥ 40 then 2
  else if t ≥ 32 then 1
  else 0

/-- Record `WeatherInfo` shared by both modules. -/
structure WeatherInfo where
  date : String := ""
  location : String := ""
  temperature : ℚ := 0
  description : String := ""
deriving Repr

/-- Parameters of `generateOutfitSuggestions` in `src/services/openai.ts`
(`Partial<OutfitContext> & \x7b weather?: WeatherInfo \x7d`): every field
optional. -/
structure GenParams where
  weather : Option WeatherInfo := none
  event : Option String := none
  lyrics : Option String := none
  movie : Option String := none
  anime : Option String := none
  sports : Option String := none
  culture : Option String := none
  destination : Option String := none
  date : Option String := none
deriving Repr

/-- Parameters of `generateOutfitSuggestions` in the unnamed variant, which
adds the season / celebrity / trend / theme / activity fields. -/
structure GenParamsV2 where
  weather : Option WeatherInfo := none
  event : Option String := none
  lyrics : Option String := none
  movie : Option String := none
  anime : Option String := none
  sports : Option String := none
  culture : Option String := none
  destination : Option String := none
  date : Option String := none
  season : Option String := none
  celebrity : Option String := none
  trend : Option String := none
  theme : Option String := none
  activity : Option String := none
deriving Repr

/-- JavaScript truthiness of an optional string field: defined and not the
empty string. -/
def truthy : Option String → Bool
  | none => false
  | some s => !(s == "")

/-- The string carried by an optional field (the branch guards guarantee it
is present where this is used). -/
def strOf : Option String → String
  | none => ""
  | some s => s

/-- The IIFE computing `context` in `generateOutfitSuggestions`
(`src/services/openai.ts`).  `fmt` stands for the external
`date-fns` call `format(new Date(date), 'PP')`, a deterministic function of
the date string. -/
def buildContext (fmt : String → String) (p : GenParams) : String :=
  match p.weather with
  | some w =>
    let temp : ℤ := jsRound w.temperature
    "Design 4 fashion‑forward outfits for " ++ w.location ++ ". Temperature: "
      ++ toString temp ++ "°F (" ++ getTemperatureCategory (temp : ℚ)
      ++ "), Condition: " ++ w.description ++ "."
  | none =>
    if truthy p.event then
      "Design 4 on‑trend outfits suitable for a " ++ strOf p.event ++ "."
    else if truthy p.lyrics then
      "Design 4 expressive outfits inspired by the vibe of these lyrics: \""
        ++ strOf p.lyrics ++ "\"."
    else if truthy p.movie then
      "Design 4 modern looks echoing the aesthetic of \"" ++ strOf p.movie ++ "\"."
    else if truthy p.anime then
      "Design 4 stylish outfits channeling the characters / art style of \""
        ++ strOf p.anime ++ "\"."
    else if truthy p.sports then
      "Design 4 fan‑centric outfits for the " ++ strOf p.sports ++ " occasion."
    else if truthy p.culture then
      "Design 4 culturally resonant outfits for \"" ++ strOf p.culture ++ "\"."
    else if truthy p.destination then
      let day := if truthy p.date then fmt (strOf p.date) else "an upcoming trip"
      "Design 4 versatile travel outfits for " ++ strOf p.destination ++ " on "
        ++ day ++ "."
    else
      "Design 4 globally inspired outfits following current fashion trends."

/-- The IIFE computing `context` in the unnamed variant's
`generateOutfitSuggestions`. -/
def buildContextV2 (fmt : String → String) (p : GenParamsV2) : String :=
  match p.weather with
  | some w =>
    let temp : ℤ := jsRound w.temperature
    "Design 4 fashion‑forward outfits for " ++ w.location ++ ". Temp: "
      ++ toString temp ++ "°F (" ++ getTempCat (temp : ℚ)
      ++ "), Condition: " ++ w.description ++ "."
  | none =>
    if truthy p.event then
      "Design 4 stylish outfits suitable for a " ++ strOf p.event ++ "."
    else if truthy p.lyrics then
      "Design 4 expressive outfits inspired by these lyrics: \""
        ++ strOf p.lyrics ++ "\"."
    else if truthy p.movie then
      "Design 4 modern looks echoing the aesthetic of \"" ++ strOf p.movie ++ "\"."
    else if truthy p.anime then
      "Design 4 stylish outfits channeling the characters / art style of \""
        ++ strOf p.anime ++ "\"."
    else if truthy p.sports then
      "Design 4 fan‑centric outfits for the " ++ strOf p.sports ++ " occasion."
    else if truthy p.culture then
      "Design 4 culturally resonant outfits for \"" ++ strOf p.culture ++ "\"."
    else if truthy p.season then
      "Design 4 must‑have outfits perfect for " ++ strOf p.season ++ " season."
    else if truthy p.celebrity then
      "Design 4 outfits that capture " ++ strOf p.celebrity ++ "'s signature style."
    else if truthy p.trend then
      "Design 4 outfits embodying the \"" ++ strOf p.trend ++ "\" trend."
    else if truthy p.theme then
      "Design 4 outfits built around a \"" ++ strOf p.theme ++ "\" theme."
    else if truthy p.activity then
      "Design 4 performance‑ready outfits tailored for " ++ strOf p.activity ++ "."
    else if truthy p.destination then
      let day := if truthy p.date then fmt (strOf p.date) else "an upcoming trip"
      "Design 4 versatile travel outfits for " ++ strOf p.destination ++ " on "
        ++ day ++ "."
    else
      "Design 4 globally inspired outfits following current fashion trends."

/-- The full user prompt sent by `generateOutfitSuggestions`
(`src/services/openai.ts`): the context directive followed by the fixed
output-schema instruction. -/
def fullPrompt (fmt : String → String) (p : GenParams) : String :=
  buildContext fmt p
    ++ "\n\nEach outfit must include:\n- \"type\": a catchy outfit name\n- \"description\": labelled items (Top, Bottom, Outerwear if required, Shoes, Accessories) with colour, fabric & fit details\n- \"searchQuery\": an e‑commerce friendly keyword\n- \"imagePrompt\": a concise descriptive image generation prompt"

/-- The full user prompt of the unnamed variant. -/
def fullPromptV2 (fmt : String → String) (p : GenParamsV2) : String :=
  buildContextV2 fmt p
    ++ "\n\nEach outfit must include:\n- \"type\": catchy outfit name\n- \"description\": labelled items (Top, Bottom, Outerwear if required, Shoes, Accessories) with colour, fabric & fit details\n- \"searchQuery\": an e‑commerce friendly keyword\n- \"imagePrompt\": a concise descriptive image generation prompt"

/-- Since `JSON.parse` stringifies its argument, so the SDK's `null` content
parses as the text `"null"` (`String(null)`). -/
def contentToJsText : Option String → String
  | some s => s
  | none => "null"

/-- Reply handling of `generateOutfitSuggestions`: `JSON.parse` the raw
content inside `try`; a parse failure is caught and yields `[]`, and a
non-array value yields `[]` via the `Array.isArray` guard.  The elements of
a parsed array are returned as-is (the `as OutfitSuggestion[]` cast performs
no runtime validation). -/
def handleGenReply (raw : String) : List Json :=
  match jsonParse raw with
  | some (Json.arr xs) => xs
  | some _ => []
  | none => []

/-- Function `generateOutfitSuggestions` of `src/services/openai.ts`, with the
external call modelled by its transport outcome: either a transport error
(network / auth / quota failure of `openai.chat.completions.create`, which
happens outside any `try` block and therefore propagates) or the reply
content.  The unnamed variant has the identical control flow around its own
prompt. -/
def generateOutfitSuggestions (fmt : String → String) (p : GenParams)
    (tr : Except String (Option String)) : Except String (List Json) :=
  match tr with
  | Except.error e => Except.error e
  | Except.ok content =>
    let _ := fullPrompt fmt p
    Except.ok (handleGenReply (contentToJsText content))

/-- Errors observable from `extractOutfitContext`. -/
inductive ExtractError where
  | invalidInput (msg : String)
  | transport (msg : String)
  | contextParse (msg : String)
deriving Repr

/-- Result of one `extractOutfitContext` call, together with whether the
external model was called. -/
structure ExtractOutcome where
  result : Except ExtractError Json
  calledExternal : Bool
deriving Repr

/-- Function `extractOutfitContext` of `src/services/openai.ts` (the unnamed variant's
`extractTravelInfo` is letter-for-letter the same logic): reject blank
input before calling out, propagate transport failures, and return the
parsed JSON object verbatim (the `as OutfitContext` cast performs no
runtime validation), turning only a JSON parse failure into the
user-facing context error. -/
def extractOutfitContext (message : String)
    (tr : Except String (Option String)) : ExtractOutcome :=
  if jsTrim message = "" then
    { result := Except.error
        (ExtractError.invalidInput "Please provide a non‑empty prompt."),
      calledExternal := false }
  else
    match tr with
    | Except.error e =>
      { result := Except.error (ExtractError.transport e), calledExternal := true }
    | Except.ok content =>
      match jsonParse (contentToJsText content) with
      | some v => { result := Except.ok v, calledExternal := true }
      | none =>
        { result := Except.error (ExtractError.contextParse
            "Could not understand your request — please refine the details."),
          calledExternal := true }

/-- The category union of `OutfitContext.type` in `src/services/openai.ts`. -/
def categoriesV1 : List String :=
  ["travel", "event", "lyrics", "movie", "anime", "sports", "culture", "generic"]

/-- The category union of `OutfitContext.type` in the unnamed variant. -/
def categoriesV2 : List String :=
  ["travel", "event", "lyrics", "movie", "anime", "sports", "culture",
   "season", "celebrity", "trend", "theme", "activity", "generic"]

/-- True when `needle` occurs at the start of `hay`. -/
def listHasPre (needle hay : List Char) : Bool :=
  match needle, hay with
  | [], _ => true
  | _ :: _, [] => false
  | c :: cs, d :: ds => c == d && listHasPre cs ds

/-- True when `needle` occurs somewhere inside `hay`. -/
def listHasSub (needle hay : List Char) : Bool :=
  match hay with
  | [] => needle.isEmpty
  | _ :: ds => listHasPre needle hay || listHasSub needle ds

/-- Substring test on strings. -/
def strContainsSub (hay needle : String) : Bool :=
  listHasSub needle.toList hay.toList

/-! ## Helper lemmas -/

/-- The category function reads off the label table at the bucket index. -/
lemma getTemperatureCategory_eq_getD (t : ℚ) :
    getTemperatureCategory t = tempLabels.getD (tempRank t) "" := by
  unfold getTemperatureCategory tempRank tempLabels
  split_ifs <;> rfl

set_option maxHeartbeats 1600000 in
/-- The bucket index is monotone in the temperature. -/
lemma tempRank_mono (t u : ℚ) (h : t ≤ u) : tempRank t ≤ tempRank u := by
  unfold tempRank
  split_ifs <;> first | omega | linarith

/-- A transport error propagates out of generation unchanged. -/
lemma generate_transport_error (fmt : String → String) (p : GenParams)
    (e : String) :
    generateOutfitSuggestions fmt p (Except.error e) = Except.error e := rfl

/-- A reply that fails to parse as JSON makes generation return `ok []`. -/
lemma generate_parse_none (fmt : String → String) (p : GenParams)
    (raw : String) (h : jsonParse raw = none) :
    generateOutfitSuggestions fmt p (Except.ok (some raw)) = Except.ok [] := by
  simp [generateOutfitSuggestions, handleGenReply, contentToJsText, h]

/-- A reply parsing to a JSON array makes generation return its elements
verbatim. -/
lemma generate_parse_arr (fmt : String → String) (p : GenParams)
    (raw : String) (xs : List Json) (h : jsonParse raw = some (Json.arr xs)) :
    generateOutfitSuggestions fmt p (Except.ok (some raw)) = Except.ok xs := by
  simp [generateOutfitSuggestions, handleGenReply, contentToJsText, h]

/-- A reply parsing to a non-array JSON value makes generation return
`ok []`. -/
lemma generate_parse_nonarr (fmt : String → String) (p : GenParams)
    (raw : String) (v : Json) (h : jsonParse raw = some v)
    (hv : jsonIsArr v = false) :
    generateOutfitSuggestions fmt p (Except.ok (some raw)) = Except.ok [] := by
  simp only [generateOutfitSuggestions, handleGenReply, contentToJsText, h]
  cases v <;> simp_all [jsonIsArr]

/-- A non-blank message with a failed transport makes extraction fail with
the transport error. -/
lemma extract_transport_error (m e : String) (hm : jsTrim m ≠ "") :
    extractOutfitContext m (Except.error e) =
      { result := Except.error (ExtractError.transport e),
        calledExternal := true } := by
  simp [extractOutfitContext, hm]

/-- A non-blank message whose reply parses makes extraction return the parsed
value verbatim. -/
lemma extract_parse_ok (m raw : String) (v : Json) (hm : jsTrim m ≠ "")
    (hp : jsonParse raw = some v) :
    extractOutfitContext m (Except.ok (some raw)) =
      { result := Except.ok v, calledExternal := true } := by
  simp [extractOutfitContext, hm, contentToJsText, hp]

/-! ## Claims -/

/-- C1, counterexample: the temperature-category function used by generation
maps 97 °F to "Scorching", not to the label "Extreme Heat" stated by the
claim. -/
theorem temp97_not_extreme_heat :
    getTemperatureCategory 97 = "Scorching" ∧
    getTemperatureCategory 97 ≠ "Extreme Heat" := by
  constructor <;> decide

/-- C1, amended: the temperature-category function maps 97 °F to
"Scorching" and 40 °F to "Cool", and it is a fixed monotonic step function
of the Fahrenheit value (the label is read off a fixed table at a bucket
index that is monotone in the temperature). -/
theorem tempCategory_step_function :
    getTemperatureCategory 97 = "Scorching" ∧
    getTemperatureCategory 40 = "Cool" ∧
    (∀ t : ℚ, getTemperatureCategory t = tempLabels.getD (tempRank t) "") ∧
    (∀ t u : ℚ, t ≤ u → tempRank t ≤ tempRank u) := by
  refine ⟨by decide, by decide, getTemperatureCategory_eq_getD, tempRank_mono⟩

/-- C1, witness for the amended claim at concrete inputs. -/
theorem tempCategory_step_function_witness :
    getTemperatureCategory 97 = "Scorching" ∧ tempRank 10 ≤ tempRank 100 :=
  ⟨tempCategory_step_function.1,
   tempCategory_step_function.2.2.2 10 100 (by norm_num)⟩

set_option maxRecDepth 8192 in
/-- C2, counterexample: generation computes no season label from the
weather date.  The directive built from a January 15 observation is exactly
the weather template — location, rounded temperature, temperature category
and condition — and the full prompt contains no "Winter"; likewise a July 4
observation in the unnamed variant produces no "Summer". -/
theorem weather_directive_has_no_season_label :
    buildContext (fun s => s)
        { weather := some { date := "2024-01-15", location := "Paris",
                            temperature := 50, description := "Cloudy" } } =
      "Design 4 fashion‑forward outfits for Paris. Temperature: 50°F (Mild), Condition: Cloudy." ∧
    strContainsSub
      (fullPrompt (fun s => s)
        { weather := some { date := "2024-01-15", location := "Paris",
                            temperature := 50, description := "Cloudy" } })
      "Winter" = false ∧
    strContainsSub
      (fullPromptV2 (fun s => s)
        { weather := some { date := "2024-07-04", location := "NYC",
                            temperature := 75, description := "Sunny" } })
      "Summer" = false := by
  refine ⟨rfl, by decide, by decide⟩

/-- C2, amended: when a weather observation is supplied, no season label is
derived from its date: in both module variants the directive is unchanged
under any change of the observation's date. -/
theorem weather_directive_date_independent :
    (∀ (fmt : String → String) (p : GenParams) (w : WeatherInfo) (d : String),
        p.weather = some w →
        buildContext fmt p =
          buildContext fmt { p with weather := some { w with date := d } }) ∧
    (∀ (fmt : String → String) (p : GenParamsV2) (w : WeatherInfo) (d : String),
        p.weather = some w →
        buildContextV2 fmt p =
          buildContextV2 fmt { p with weather := some { w with date := d } }) := by
  constructor
  · intro fmt p w d h
    simp [buildContext, h]
  · intro fmt p w d h
    simp [buildContextV2, h]

/-- C2, witness for the amended claim: moving the observation date from
January 15 to December 31 leaves the directive unchanged. -/
theorem weather_directive_date_independent_witness :
    buildContext (fun s => s)
        { weather := some { date := "2024-01-15", location := "Paris",
                            temperature := 50, description := "Cloudy" } } =
      buildContext (fun s => s)
        { weather := some { date := "1999-12-31", location := "Paris",
                            temperature := 50, description := "Cloudy" } } :=
  weather_directive_date_independent.1 (fun s => s)
    { weather := some { date := "2024-01-15", location := "Paris",
                        temperature := 50, description := "Cloudy" } }
    { date := "2024-01-15", location := "Paris",
      temperature := 50, description := "Cloudy" }
    "1999-12-31" rfl

/-- Model reply of claim C3: a JSON array wrapped in extra prose. -/
def proseWrappedReply : String :=
  "Here you go: [ \x7b\"type\":\"A\",\"description\":\"d\",\"searchQuery\":\"q\",\"imagePrompt\":\"i\"\x7d ] Enjoy!"

/-- C3, counterexample: generation does not locate the bracketed substring;
`JSON.parse` of the whole prose-wrapped reply fails, so generation returns
the empty list — zero suggestions instead of the claimed one. -/
theorem prose_wrapped_reply_yields_empty :
    generateOutfitSuggestions (fun s => s) ({} : GenParams)
        (Except.ok (some proseWrappedReply)) = Except.ok [] ∧
    (handleGenReply proseWrappedReply).length = 0 := ⟨rfl, rfl⟩

/-- C3, amended: the parser attempts `JSON.parse` on the entire raw reply,
with no bracket scanning; for the prose-wrapped reply the parse fails and
generation returns the empty list, for every parameter record. -/
theorem prose_wrapped_reply_parse_fails :
    jsonParse proseWrappedReply = none ∧
    ∀ (fmt : String → String) (p : GenParams),
      generateOutfitSuggestions fmt p (Except.ok (some proseWrappedReply)) =
        Except.ok [] :=
  ⟨rfl, fun fmt p => generate_parse_none fmt p _ rfl⟩

/-- Model reply of claim C4: a JSON object whose category tag is outside
the enumerated set. -/
def unknownTagReply : String := "\x7b\"type\":\"bogus\"\x7d"

/-- C4, counterexample: an unrecognized category tag in the model's JSON
reply is returned to the caller unchanged — it is not replaced by any
fallback — even though "bogus" belongs to neither variant's category
union. -/
theorem unknown_category_leaks_through :
    extractOutfitContext "party outfit" (Except.ok (some unknownTagReply)) =
      { result := Except.ok (Json.obj [("type", Json.str "bogus")]),
        calledExternal := true } ∧
    jsonLookup (Json.obj [("type", Json.str "bogus")]) "type" =
      some (Json.str "bogus") ∧
    "bogus" ∉ categoriesV1 ∧ "bogus" ∉ categoriesV2 := by
  refine ⟨rfl, rfl, by decide, by decide⟩

/-- C4, amended: extraction performs no category validation: whenever the
model reply parses as JSON, the parsed value is returned to the caller
verbatim, whatever its category tag. -/
theorem extraction_returns_reply_verbatim :
    ∀ (m raw : String) (v : Json), jsTrim m ≠ "" → jsonParse raw = some v →
      extractOutfitContext m (Except.ok (some raw)) =
        { result := Except.ok v, calledExternal := true } :=
  fun m raw v hm hp => extract_parse_ok m raw v hm hp

/-- C4, witness for the amended claim at the unknown-tag reply. -/
theorem extraction_returns_reply_verbatim_witness :
    extractOutfitContext "office outfit" (Except.ok (some unknownTagReply)) =
      { result := Except.ok (Json.obj [("type", Json.str "bogus")]),
        calledExternal := true } :=
  extraction_returns_reply_verbatim "office outfit" unknownTagReply
    (Json.obj [("type", Json.str "bogus")]) (by decide) rfl

/-- C5, counterexample: a transport failure of the external call during
generation propagates to the caller — the call happens outside the try
block — instead of being converted into an empty suggestion list. -/
theorem generation_transport_error_propagates :
    generateOutfitSuggestions (fun s => s) ({} : GenParams)
        (Except.error "network failure") = Except.error "network failure" ∧
    (Except.error "network failure" : Except String (List Json)) ≠
      Except.ok [] :=
  ⟨rfl, fun h => Except.noConfusion h⟩

/-- C5, amended: transport failure is propagated as a fatal error by both
extraction and generation alike; generation converts only reply-parse
failures into the empty list. -/
theorem transport_error_policy :
    (∀ (fmt : String → String) (p : GenParams) (e : String),
        generateOutfitSuggestions fmt p (Except.error e) = Except.error e) ∧
    (∀ (m e : String), jsTrim m ≠ "" →
        extractOutfitContext m (Except.error e) =
          { result := Except.error (ExtractError.transport e),
            calledExternal := true }) ∧
    (∀ (fmt : String → String) (p : GenParams) (raw : String),
        jsonParse raw = none →
        generateOutfitSuggestions fmt p (Except.ok (some raw)) = Except.ok []) :=
  ⟨generate_transport_error, extract_transport_error, generate_parse_none⟩

/-- C5, witness for the amended claim at concrete inputs. -/
theorem transport_error_policy_witness :
    extractOutfitContext "summer outfit" (Except.error "quota exceeded") =
      { result := Except.error (ExtractError.transport "quota exceeded"),
        calledExternal := true } ∧
    generateOutfitSuggestions (fun s => s) ({} : GenParams)
        (Except.ok (some "not json")) = Except.ok [] :=
  ⟨transport_error_policy.2.1 "summer outfit" "quota exceeded" (by decide),
   transport_error_policy.2.2 (fun s => s) ({} : GenParams) "not json" rfl⟩

/-- Model reply of claim C6: a well-formed JSON array of one suggestion. -/
def singleOutfitReply : String :=
  "[\x7b\"type\":\"A\",\"description\":\"d\",\"searchQuery\":\"q\",\"imagePrompt\":\"i\"\x7d]"

/-- C6, counterexample: a successful generation call can return one
suggestion, not four — a well-formed reply array of length one is passed
through as-is. -/
theorem generation_returns_single_element_array :
    generateOutfitSuggestions (fun s => s) ({} : GenParams)
        (Except.ok (some singleOutfitReply)) =
      Except.ok [Json.obj [("type", Json.str "A"), ("description", Json.str "d"),
        ("searchQuery", Json.str "q"), ("imagePrompt", Json.str "i")]] ∧
    (handleGenReply singleOutfitReply).length = 1 := ⟨rfl, rfl⟩

/-- C6, amended: generation returns whatever array the reply parses to,
with no length or field validation; a reply that fails to parse yields the
empty list. -/
theorem generation_passes_array_through :
    (∀ (fmt : String → String) (p : GenParams) (raw : String) (xs : List Json),
        jsonParse raw = some (Json.arr xs) →
        generateOutfitSuggestions fmt p (Except.ok (some raw)) = Except.ok xs) ∧
    (∀ (fmt : String → String) (p : GenParams) (raw : String),
        jsonParse raw = none →
        generateOutfitSuggestions fmt p (Except.ok (some raw)) = Except.ok []) :=
  ⟨generate_parse_arr, generate_parse_none⟩

/-- C6, witness for the amended claim: a two-number reply array comes back
verbatim, and a malformed reply comes back empty. -/
theorem generation_passes_array_through_witness :
    generateOutfitSuggestions (fun s => s) ({} : GenParams)
        (Except.ok (some "[1,2]")) = Except.ok [Json.num "1", Json.num "2"] ∧
    generateOutfitSuggestions (fun s => s) ({} : GenParams)
        (Except.ok (some "oops")) = Except.ok [] :=
  ⟨generation_passes_array_through.1 (fun s => s) ({} : GenParams) "[1,2]"
     [Json.num "1", Json.num "2"] rfl,
   generation_passes_array_through.2 (fun s => s) ({} : GenParams) "oops" rfl⟩

/-- C7: the directive is a pure function of the context fields and the
optional weather record (`buildContext` takes no transport input, so equal
inputs give equal directives); whenever weather is present the weather
template is used, regardless of every category field; and the
event-"wedding", no-weather directive contains "wedding". -/
theorem directive_weather_precedence_and_wedding :
    (∀ (fmt : String → String) (p : GenParams) (w : WeatherInfo),
        p.weather = some w →
        buildContext fmt p =
          "Design 4 fashion‑forward outfits for " ++ w.location
            ++ ". Temperature: " ++ toString (jsRound w.temperature) ++ "°F ("
            ++ getTemperatureCategory ((jsRound w.temperature : ℤ) : ℚ)
            ++ "), Condition: " ++ w.description ++ ".") ∧
    strContainsSub
      (buildContext (fun s => s) { event := some "wedding" }) "wedding" = true := by
  constructor
  · intro fmt p w h
    simp [buildContext, h]
  · decide

/-- C7, witness: with weather and an event both present the weather
template wins, at a concrete freezing observation. -/
theorem directive_weather_precedence_witness :
    buildContext (fun s => s)
        { weather := some { date := "2024-06-01", location := "Oslo",
                            temperature := 30, description := "Snow" },
          event := some "wedding" } =
      "Design 4 fashion‑forward outfits for Oslo. Temperature: 30°F (Freezing), Condition: Snow." := by
  have h := directive_weather_precedence_and_wedding.1 (fun s => s)
    { weather := some { date := "2024-06-01", location := "Oslo",
                        temperature := 30, description := "Snow" },
      event := some "wedding" }
    { date := "2024-06-01", location := "Oslo", temperature := 30,
      description := "Snow" } rfl
  exact h.trans (by decide)

/-- C8: a message that is empty or whitespace-only (empty after trimming)
makes extraction fail with the invalid-input error, and the external model
is not called, whatever the transport would have returned. -/
theorem blank_message_rejected_without_call :
    ∀ (m : String) (tr : Except String (Option String)), jsTrim m = "" →
      extractOutfitContext m tr =
        { result := Except.error
            (ExtractError.invalidInput "Please provide a non‑empty prompt."),
          calledExternal := false } := by
  intro m tr h
  simp [extractOutfitContext, h]

/-- C8, witness at a whitespace-only message. -/
theorem blank_message_rejected_without_call_witness :
    extractOutfitContext " \t\n " (Except.ok none) =
      { result := Except.error
          (ExtractError.invalidInput "Please provide a non‑empty prompt."),
        calledExternal := false } :=
  blank_message_rejected_without_call " \t\n " (Except.ok none) (by decide)

/-- C9: every generation reply that is not parseable as JSON, and every
reply that parses to a non-array value, makes generation return `ok []` —
an ordinary value, never an error. -/
theorem bad_reply_yields_empty_list :
    (∀ (fmt : String → String) (p : GenParams) (raw : String),
        jsonParse raw = none →
        generateOutfitSuggestions fmt p (Except.ok (some raw)) = Except.ok []) ∧
    (∀ (fmt : String → String) (p : GenParams) (raw : String) (v : Json),
        jsonParse raw = some v → jsonIsArr v = false →
        generateOutfitSuggestions fmt p (Except.ok (some raw)) = Except.ok []) :=
  ⟨generate_parse_none, generate_parse_nonarr⟩

/-- C9, witness: bracket-less garbage and a non-array JSON object both come
back as the empty list. -/
theorem bad_reply_yields_empty_list_witness :
    generateOutfitSuggestions (fun s => s) ({} : GenParams)
        (Except.ok (some "garbage with no brackets at all")) = Except.ok [] ∧
    generateOutfitSuggestions (fun s => s) ({} : GenParams)
        (Except.ok (some "\x7b\"not\":\"an array\"\x7d")) = Except.ok [] :=
  ⟨bad_reply_yields_empty_list.1 (fun s => s) ({} : GenParams)
     "garbage with no brackets at all" rfl,
   bad_reply_yields_empty_list.2 (fun s => s) ({} : GenParams)
     "\x7b\"not\":\"an array\"\x7d" (Json.obj [("not", Json.str "an array")])
     rfl rfl⟩

/-- C10: the two temperature helpers of the two module variants are
extensionally equal; the shared step function uses the thresholds
90/80/70/60/50/40/32 with the labels Scorching, Very Hot, Hot, Warm, Mild,
Cool, Cold, Freezing; and the unnamed variant's generation applies the
helper to the weather temperature after rounding to the nearest integer
(the named variant's identical use is stated with claim C7). -/
theorem temp_helpers_extensionally_equal :
    (∀ t : ℚ, getTemperatureCategory t = getTempCat t) ∧
    (getTempCat 90 = "Scorching" ∧ getTempCat 89 = "Very Hot" ∧
     getTempCat 80 = "Very Hot" ∧ getTempCat 79 = "Hot" ∧
     getTempCat 70 = "Hot" ∧ getTempCat 69 = "Warm" ∧
     getTempCat 60 = "Warm" ∧ getTempCat 59 = "Mild" ∧
     getTempCat 50 = "Mild" ∧ getTempCat 49 = "Cool" ∧
     getTempCat 40 = "Cool" ∧ getTempCat 39 = "Cold" ∧
     getTempCat 32 = "Cold" ∧ getTempCat 31 = "Freezing") ∧
    (∀ (fmt : String → String) (w : WeatherInfo),
        buildContextV2 fmt { weather := some w } =
          "Design 4 fashion‑forward outfits for " ++ w.location ++ ". Temp: "
            ++ toString (jsRound w.temperature) ++ "°F ("
            ++ getTempCat ((jsRound w.temperature : ℤ) : ℚ)
            ++ "), Condition: " ++ w.description ++ ".") :=
  ⟨fun t => rfl, by decide, fun fmt w => rfl⟩

end AIStore
